import Mathlib

/-!
Verification of the 2PC (two-phase commit) core of the Distributed-Database
repository: the accounts-service participant (account repository and 2PC
controller) and the transactions-service coordinator.

Monetary amounts are modelled as integers (the source stores fixed-point
decimals, scale 4, as strings and converts with parseFloat); ids (account
and transaction identifiers, uuids in the source) are strings.  Database
tables are modelled as functions from id to an optional row; each SQL
statement of the source is one atomic Lean function, mirroring the source's
predicate-based conditional updates.
-/

/-- Operation kind of a prepare request (the source validates
`operation ∈ {debit, credit}`). -/
inductive Op
  | debit
  | credit
deriving DecidableEq, Repr

/-- One row of the `accounts` table (accounts-service schema.ts):
`balance` decimal, `transaction_lock` nullable uuid, `pending_change`
nullable decimal. -/
structure Account where
  balance : Int
  transaction_lock : Option String
  pending_change : Option Int
deriving DecidableEq, Repr

/-- The `accounts` table, keyed by `account_id`. -/
def AccountsDb : Type := String → Option Account

/-- Overwrite (or insert) one row of the accounts table. -/
def setAccount (db : AccountsDb) (accountId : String) (a : Account) : AccountsDb :=
  fun k => if k = accountId then some a else db k

namespace AccountRepository

/-- `findById`: SELECT * FROM accounts WHERE account_id = ? LIMIT 1. -/
def findById (db : AccountsDb) (accountId : String) : Option Account :=
  db accountId

/-- `lockForTransaction`: UPDATE accounts SET transaction_lock = ?,
pending_change = ? WHERE account_id = ? AND transaction_lock IS NULL;
returns `rowCount > 0`. -/
def lockForTransaction (db : AccountsDb) (accountId transactionId : String)
    (pendingChange : Int) : AccountsDb × Bool :=
  match db accountId with
  | some a =>
    match a.transaction_lock with
    | none =>
      (setAccount db accountId ⟨a.balance, some transactionId, some pendingChange⟩, true)
    | some _ => (db, false)
  | none => (db, false)

/-- `canDebit`: account exists and `account.balance >= amount`. -/
def canDebit (db : AccountsDb) (accountId : String) (amount : Int) : Bool :=
  match findById db accountId with
  | none => false
  | some a => amount ≤ a.balance

/-- `commitTransaction`: select the row WHERE account_id = ? AND
transaction_lock = ?; fail if absent or its pending_change is null;
otherwise UPDATE balance ← balance + pending_change, clear
transaction_lock and pending_change, same WHERE clause; returns
`rowCount > 0`. -/
def commitTransaction (db : AccountsDb) (accountId transactionId : String) :
    AccountsDb × Bool :=
  match db accountId with
  | some a =>
    if a.transaction_lock = some transactionId then
      match a.pending_change with
      | none => (db, false)
      | some pc => (setAccount db accountId ⟨a.balance + pc, none, none⟩, true)
    else (db, false)
  | none => (db, false)

/-- `abortTransaction`: UPDATE accounts SET transaction_lock = NULL,
pending_change = NULL WHERE account_id = ? AND transaction_lock = ?;
returns `rowCount > 0`. -/
def abortTransaction (db : AccountsDb) (accountId transactionId : String) :
    AccountsDb × Bool :=
  match db accountId with
  | some a =>
    if a.transaction_lock = some transactionId then
      (setAccount db accountId ⟨a.balance, none, none⟩, true)
    else (db, false)
  | none => (db, false)

/-- Result shape of `isLocked`. -/
structure LockStatus where
  locked : Bool
  transactionId : Option String
deriving DecidableEq, Repr

/-- `isLocked`: read transaction_lock of the row; `locked = !!transaction_lock`. -/
def isLocked (db : AccountsDb) (accountId : String) : LockStatus :=
  match db accountId with
  | none => ⟨false, none⟩
  | some a => ⟨a.transaction_lock.isSome, a.transaction_lock⟩

/-- `getEffectiveBalance`: balance plus pending_change when present. -/
def getEffectiveBalance (db : AccountsDb) (accountId : String) : Option Int :=
  match findById db accountId with
  | none => none
  | some a =>
    match a.pending_change with
    | none => some a.balance
    | some pc => some (a.balance + pc)

end AccountRepository

/-- Outcome of the participant's POST /2pc/prepare handler
(TwoPhaseCommitController.prepare).  The abort outcomes carry the HTTP
error the controller produces: 404 NOT_FOUND, 409 CONFLICT_ERROR for a
lock held by another transaction, 409 with vote abort and code
INSUFFICIENT_FUNDS, and 409 CONFLICT_ERROR when `lockForTransaction`
matched no row. -/
inductive PrepareOutcome
  | notFound
  | lockedByOther (existing : Option String)
  | insufficientFunds (currentBalance requestedAmount : Int)
  | lockFailed
  | voteCommit (currentBalance pendingChange : Int)
deriving DecidableEq, Repr

/-- Outcome of the participant's POST /2pc/commit handler. -/
inductive CommitOutcome
  | conflict
  | success (newBalance : Option Int)
deriving DecidableEq, Repr

/-- Outcome of the participant's POST /2pc/abort handler. -/
inductive AbortOutcome
  | conflict
  | success
deriving DecidableEq, Repr

namespace TwoPhaseCommitController

open AccountRepository

/-- Phase 1 handler `prepare` (part_006 lines 12-116): find the account
(404 if absent); if locked by a different transaction answer 409; for a
debit require `canDebit` on |amount| else vote abort INSUFFICIENT_FUNDS;
compute pendingChange = −|amount| for debit, +|amount| for credit; then
`lockForTransaction` (CAS on transaction_lock IS NULL), answering 409
when it matched no row, and vote commit on success. -/
def prepare (db : AccountsDb) (transactionId accountId : String)
    (amount : Int) (operation : Op) : PrepareOutcome × AccountsDb :=
  match db accountId with
  | none => (.notFound, db)
  | some account =>
    let lockStatus := isLocked db accountId
    if lockStatus.locked ∧ lockStatus.transactionId ≠ some transactionId then
      (.lockedByOther lockStatus.transactionId, db)
    else if operation = .debit ∧ ¬ (canDebit db accountId |amount| = true) then
      (.insufficientFunds account.balance |amount|, db)
    else
      let pendingChange : Int := if operation = .debit then -|amount| else |amount|
      let r := lockForTransaction db accountId transactionId pendingChange
      if r.2 then (.voteCommit account.balance pendingChange, r.1)
      else (.lockFailed, db)

/-- Phase 2 handler `commit` (part_006 lines 121-166):
`commitTransaction`, 409 CONFLICT_ERROR if it reports failure; on success
re-read the account and answer with its new balance. -/
def commit (db : AccountsDb) (transactionId accountId : String) :
    CommitOutcome × AccountsDb :=
  let r := commitTransaction db accountId transactionId
  if r.2 then (.success ((findById r.1 accountId).map Account.balance), r.1)
  else (.conflict, db)

/-- Phase 2 handler `abort` (part_006 lines 171-211): `abortTransaction`,
409 CONFLICT_ERROR if it reports failure, success otherwise. -/
def abort (db : AccountsDb) (transactionId accountId : String) :
    AbortOutcome × AccountsDb :=
  let r := abortTransaction db accountId transactionId
  if r.2 then (.success, r.1)
  else (.conflict, db)

end TwoPhaseCommitController

/-- Transaction status column (transactions-service schema). -/
inductive TxStatus
  | pending
  | committed
  | aborted
deriving DecidableEq, Repr

/-- One row of the `transactions` table. -/
structure TxRow where
  source_account_id : String
  destination_account_id : String
  amount : Int
  status : TxStatus
deriving DecidableEq, Repr

/-- The `transactions` table, keyed by `transaction_id`. -/
def TxDb : Type := String → Option TxRow

/-- Overwrite (or insert) one row of the transactions table. -/
def setTxRow (db : TxDb) (transactionId : String) (row : TxRow) : TxDb :=
  fun k => if k = transactionId then some row else db k

namespace TransactionRepository

/-- `findById`: SELECT * FROM transactions WHERE transaction_id = ? LIMIT 1. -/
def findById (db : TxDb) (transactionId : String) : Option TxRow :=
  db transactionId

/-- `create`: INSERT a row; the database mints a fresh uuid, modelled by the
`freshId` argument. -/
def create (db : TxDb) (freshId : String) (row : TxRow) : TxDb :=
  setTxRow db freshId row

/-- `createWithId`: INSERT a row under a caller-chosen transaction_id. -/
def createWithId (db : TxDb) (transactionId : String) (row : TxRow) : TxDb :=
  setTxRow db transactionId row

/-- `updateStatus`: UPDATE transactions SET status = ? WHERE
transaction_id = ? — unconditional on the current status; returns the
updated row when one matched. -/
def updateStatus (db : TxDb) (transactionId : String) (status : TxStatus) :
    TxDb × Option TxRow :=
  match db transactionId with
  | none => (db, none)
  | some row =>
    let row' : TxRow := ⟨row.source_account_id, row.destination_account_id, row.amount, status⟩
    (setTxRow db transactionId row', some row')

end TransactionRepository

/-- Vote carried in a participant's prepare response body. -/
inductive Vote
  | commit
  | abort
deriving DecidableEq, Repr

/-- What the wire delivered for one outbound prepare call: a 2xx JSON body
(with its `success` flag and optional `vote` field), a non-2xx HTTP
response, a transport/connection failure, or a timeout.  Axios throws on
the last three, and the coordinator's catch folds them all into a vote of
abort. -/
inductive PrepareWire
  | ok (success : Bool) (vote : Option Vote)
  | non2xx
  | transport
  | timeout
deriving DecidableEq, Repr

/-- Vote recorded by `sendPrepareRequest` (part_013 lines 878-924): a 2xx
body with success=true keeps its vote field as-is; success=false defaults a
missing vote to abort (`response.data.vote || 'abort'`); any axios error
(non-2xx, transport, timeout) is mapped to vote abort. -/
def recordedVote : PrepareWire → Option Vote
  | .ok true v => v
  | .ok false v => some (v.getD .abort)
  | .non2xx => some .abort
  | .transport => some .abort
  | .timeout => some .abort

/-- `result.vote === 'commit'` as tested by the coordinator's `every`. -/
def votesCommit (w : PrepareWire) : Bool :=
  recordedVote w = some Vote.commit

/-- Client-facing transfer request body. -/
structure TransferRequest where
  source_account_id : String
  destination_account_id : String
  amount : Int
deriving DecidableEq, Repr

/-- Network environment of one `executeTransfer` attempt: the two prepare
wire results and whether each `sendCommitRequest` resolved (2xx with
success=true) or threw. -/
structure Env where
  prepSrc : PrepareWire
  prepDst : PrepareWire
  commitSrc : Bool
  commitDst : Bool
deriving DecidableEq, Repr

/-- Result returned to the caller of `executeTransfer`:
`manualVerificationRequired` models the 'Transaction committed with
warnings - manual verification required' message together with the
severity-CRITICAL diagnostic logged when some commit request failed. -/
structure TransferResult where
  transaction_id : String
  status : TxStatus
  manualVerificationRequired : Bool
deriving DecidableEq, Repr

/-- Everything one `executeTransfer` attempt produced: its result, the
transactions table afterwards, and which accounts were sent Commit and
Abort requests. -/
structure CoordOutcome where
  result : TransferResult
  txdb : TxDb
  commitsSent : List String
  abortsSent : List String

namespace TwoPhaseCommitCoordinator

open TransactionRepository

/-- `executeTransfer` (part_013 lines 561-728).  Step 1 reuses a provided
transaction id (fetching or inserting its row) or inserts a fresh row with
a database-minted id; the prepare phase sends debit −amount to the source
and credit +amount to the destination; if both recorded votes are commit
the commit phase runs and the row is finalized committed (with the
critical manual-verification path when a commit call failed), otherwise
aborts are sent to both participants and the row is finalized aborted. -/
def executeTransfer (txdb : TxDb) (req : TransferRequest)
    (providedTransactionId : Option String) (freshId : String) (env : Env) :
    CoordOutcome :=
  let transactionId :=
    match providedTransactionId with
    | some t => t
    | none => freshId
  let pendingRow : TxRow :=
    ⟨req.source_account_id, req.destination_account_id, req.amount, .pending⟩
  let txdb1 :=
    match providedTransactionId with
    | some t =>
      match findById txdb t with
      | some _ => txdb
      | none => createWithId txdb t pendingRow
    | none => create txdb freshId pendingRow
  let allCommit := votesCommit env.prepSrc && votesCommit env.prepDst
  if allCommit then
    let allCommitSuccess := env.commitSrc && env.commitDst
    let txdb2 := (updateStatus txdb1 transactionId .committed).1
    ⟨⟨transactionId, .committed, !allCommitSuccess⟩, txdb2,
      [req.source_account_id, req.destination_account_id], []⟩
  else
    let txdb2 := (updateStatus txdb1 transactionId .aborted).1
    ⟨⟨transactionId, .aborted, false⟩, txdb2, [],
      [req.source_account_id, req.destination_account_id]⟩

/-- Result of `executeTransferWithRetry`, together with the transaction id
used by each attempt, in order. -/
structure RetryOutcome where
  result : TransferResult
  txdb : TxDb
  attemptTids : List String

/-- `executeTransferWithRetry` (part_013 lines 494-556): up to maxRetries
attempts (here: one list element per attempt, each with the fresh id its
`create` would mint and its network environment); every attempt passes the
same `providedTransactionId` through to `executeTransfer`; the loop
returns on the first committed result or after the last attempt. -/
def executeTransferWithRetry (txdb : TxDb) (req : TransferRequest)
    (providedTransactionId : Option String) :
    List (String × Env) → RetryOutcome
  | [] => ⟨⟨"", .aborted, false⟩, txdb, []⟩
  | (freshId, env) :: rest =>
    let out := executeTransfer txdb req providedTransactionId freshId env
    if out.result.status = .committed ∨ rest = [] then
      ⟨out.result, out.txdb, [out.result.transaction_id]⟩
    else
      let tail := executeTransferWithRetry out.txdb req providedTransactionId rest
      ⟨tail.result, tail.txdb, out.result.transaction_id :: tail.attemptTids⟩

end TwoPhaseCommitCoordinator

/-- The participant side of one transfer's prepare phase, linearized: the
coordinator (part_013 preparePhase, lines 733-788) sends
Prepare(tid, source, −amount, debit) and Prepare(tid, destination,
+amount, credit); each is handled atomically by the participant. -/
def participantPreparePhase (db : AccountsDb) (transactionId src dst : String)
    (amount : Int) : (PrepareOutcome × PrepareOutcome) × AccountsDb :=
  let r1 := TwoPhaseCommitController.prepare db transactionId src (-amount) .debit
  let r2 := TwoPhaseCommitController.prepare r1.2 transactionId dst amount .credit
  ((r1.1, r2.1), r2.2)

/-- The participant side of one transfer's commit phase, linearized:
Commit(tid, source) and Commit(tid, destination). -/
def participantCommitPhase (db : AccountsDb) (transactionId src dst : String) :
    (CommitOutcome × CommitOutcome) × AccountsDb :=
  let r1 := TwoPhaseCommitController.commit db transactionId src
  let r2 := TwoPhaseCommitController.commit r1.2 transactionId dst
  ((r1.1, r2.1), r2.2)

/-- The participant side of one transfer's abort phase, linearized:
Abort(tid, source) and Abort(tid, destination). -/
def participantAbortPhase (db : AccountsDb) (transactionId src dst : String) :
    (AbortOutcome × AbortOutcome) × AccountsDb :=
  let r1 := TwoPhaseCommitController.abort db transactionId src
  let r2 := TwoPhaseCommitController.abort r1.2 transactionId dst
  ((r1.1, r2.1), r2.2)

/-- A two-account table used in several concrete checks. -/
def dbAB : AccountsDb :=
  fun k =>
    if k = "A" then some ⟨1000, none, none⟩
    else if k = "B" then some ⟨750, none, none⟩
    else none

/-- One account, balance 100, already locked by transaction t1 with stored
pending_change −50. -/
def dbLockedA : AccountsDb :=
  fun k => if k = "A" then some ⟨100, some "t1", some (-50)⟩ else none

/-- One account, balance 100, not locked. -/
def dbUnlockedA : AccountsDb :=
  fun k => if k = "A" then some ⟨100, none, none⟩ else none

/-- An empty transactions table. -/
def txdbEmpty : TxDb := fun _ => none

/-- A transactions table holding one row for id t, already finalized
aborted. -/
def txdbAbortedT : TxDb :=
  fun k => if k = "t" then some ⟨"A", "B", 50, .aborted⟩ else none

/-- A transfer request of 50 from A to B. -/
def reqAB : TransferRequest := ⟨"A", "B", 50⟩

/-- Environment in which both prepares vote commit and both commits
succeed. -/
def envAllOk : Env := ⟨.ok true (some .commit), .ok true (some .commit), true, true⟩

/-- Environment in which the source's prepare votes abort. -/
def envPrepAbort : Env := ⟨.ok false (some .abort), .ok true (some .commit), true, true⟩

/-- Environment in which both prepares vote commit but the commit request
to the destination fails. -/
def envCommitDstFails : Env :=
  ⟨.ok true (some .commit), .ok true (some .commit), true, false⟩

section SanityChecks

example :
    (TwoPhaseCommitController.prepare dbAB "t1" "A" (-50) .debit).1 =
      .voteCommit 1000 (-50) := by decide

example :
    (TwoPhaseCommitController.prepare dbAB "t1" "A" (-5000) .debit).1 =
      .insufficientFunds 1000 5000 := by decide

example :
    (TwoPhaseCommitController.prepare dbAB "t1" "C" (-50) .debit).1 =
      .notFound := by decide

end SanityChecks

theorem setAccount_self (db : AccountsDb) (aid : String) (a : Account) :
    setAccount db aid a aid = some a := by
  simp [setAccount]

theorem setAccount_other (db : AccountsDb) (aid k : String) (a : Account)
    (h : k ≠ aid) : setAccount db aid a k = db k := by
  simp [setAccount, h]

theorem canDebit_eq (db : AccountsDb) (aid : String) (a : Account) (amount : Int)
    (hfind : db aid = some a) :
    AccountRepository.canDebit db aid amount = decide (amount ≤ a.balance) := by
  simp [AccountRepository.canDebit, AccountRepository.findById, hfind]

/-- A Prepare on an existing unlocked account whose debit (when it is one)
is feasible votes commit and records the signed pending change. -/
theorem prepare_unlocked_success (db : AccountsDb) (tid aid : String) (amt : Int)
    (op : Op) (a : Account) (hfind : db aid = some a)
    (hlock : a.transaction_lock = none)
    (hfeas : op = .debit → |amt| ≤ a.balance) :
    TwoPhaseCommitController.prepare db tid aid amt op =
      (.voteCommit a.balance (if op = .debit then -|amt| else |amt|),
        setAccount db aid
          ⟨a.balance, some tid, some (if op = .debit then -|amt| else |amt|)⟩) := by
  unfold TwoPhaseCommitController.prepare
  cases op with
  | debit =>
    have h1 : |amt| ≤ a.balance := hfeas rfl
    simp [hfind, AccountRepository.isLocked, hlock, canDebit_eq db aid a _ hfind, h1,
      AccountRepository.lockForTransaction]
  | credit =>
    simp [hfind, AccountRepository.isLocked, hlock,
      AccountRepository.lockForTransaction]

/-- A Prepare on an account locked by a different transaction answers 409
with the holder's id and changes nothing. -/
theorem prepare_locked_other (db : AccountsDb) (tid aid : String) (amt : Int)
    (op : Op) (a : Account) (hfind : db aid = some a) (t : String)
    (hlock : a.transaction_lock = some t) (hne : t ≠ tid) :
    TwoPhaseCommitController.prepare db tid aid amt op =
      (.lockedByOther (some t), db) := by
  unfold TwoPhaseCommitController.prepare
  have h2 : (some t : Option String) ≠ some tid := by simpa using hne
  simp [hfind, AccountRepository.isLocked, hlock, h2]

/-- C1: a repeated Prepare by the transaction already holding the lock is
claimed to return vote commit and leave the account unchanged; on the
code, `lockForTransaction` updates only WHERE transaction_lock IS NULL, so
the re-prepare falls through the same-transaction carve-out and fails with
409 CONFLICT_ERROR ('Failed to lock account for transaction').  Evaluated
at a concrete account locked by t1 with stored pending_change −50 and a
repeated Prepare(t1, A, −50, debit): the handler answers lockFailed, not
vote commit, and the table is unchanged. -/
theorem claim_C1_repeated_prepare_conflicts :
    TwoPhaseCommitController.prepare dbLockedA "t1" "A" (-50) .debit =
      (.lockFailed, dbLockedA) ∧
    PrepareOutcome.lockFailed ≠ .voteCommit 100 (-50) := by
  exact ⟨rfl, by decide⟩

/-- C3 counterexample: Abort(t1, A) on an account that is not locked at
all is claimed to return success; the code's `abortTransaction` matches no
row (WHERE transaction_lock = t1) and the handler answers 409
CONFLICT_ERROR instead. -/
theorem claim_C3_counterexample :
    (TwoPhaseCommitController.abort dbUnlockedA "t1" "A").1 = .conflict ∧
    AbortOutcome.conflict ≠ .success := by
  exact ⟨rfl, by decide⟩

/-- C3 amended: Abort(tx_id, account_id) on an account not locked by
exactly tx_id (no account, no lock, or a different holder) fails with
Conflict and changes no account state; when the account is locked by
tx_id, the first Abort succeeds and releases the lock, and a repeated
Abort then fails with Conflict while still changing nothing. -/
theorem claim_C3_abort_non_idempotent (db : AccountsDb) (tid aid : String) :
    ((db aid).bind Account.transaction_lock ≠ some tid →
      TwoPhaseCommitController.abort db tid aid = (.conflict, db)) ∧
    (∀ a : Account, db aid = some a → a.transaction_lock = some tid →
      TwoPhaseCommitController.abort db tid aid =
        (.success, setAccount db aid ⟨a.balance, none, none⟩) ∧
      TwoPhaseCommitController.abort (setAccount db aid ⟨a.balance, none, none⟩) tid aid =
        (.conflict, setAccount db aid ⟨a.balance, none, none⟩)) := by
  constructor
  · intro h
    unfold TwoPhaseCommitController.abort AccountRepository.abortTransaction
    cases hdb : db aid with
    | none => simp
    | some a =>
      have hne : a.transaction_lock ≠ some tid := by
        simpa [hdb] using h
      simp [hne]
  · intro a hdb hlock
    refine ⟨?_, ?_⟩
    · unfold TwoPhaseCommitController.abort AccountRepository.abortTransaction
      simp [hdb, hlock]
    · unfold TwoPhaseCommitController.abort AccountRepository.abortTransaction
      simp [setAccount_self]

/-- C3 witness: the amended statement at concrete inputs — an unlocked
account answers Conflict, while an account locked by t1 is released by the
first Abort and the second Abort answers Conflict. -/
theorem claim_C3_abort_non_idempotent_witness :
    TwoPhaseCommitController.abort dbUnlockedA "t1" "A" = (.conflict, dbUnlockedA) ∧
    (TwoPhaseCommitController.abort dbLockedA "t1" "A" =
        (.success, setAccount dbLockedA "A" ⟨100, none, none⟩) ∧
      TwoPhaseCommitController.abort (setAccount dbLockedA "A" ⟨100, none, none⟩) "t1" "A" =
        (.conflict, setAccount dbLockedA "A" ⟨100, none, none⟩)) := by
  exact ⟨(claim_C3_abort_non_idempotent dbUnlockedA "t1" "A").1 (by decide),
    (claim_C3_abort_non_idempotent dbLockedA "t1" "A").2 ⟨100, some "t1", some (-50)⟩ rfl rfl⟩

/-- A Commit by the transaction holding the lock applies the pending
change and clears both lock fields. -/
theorem commit_success_of_locked (db : AccountsDb) (tid aid : String)
    (a : Account) (pc : Int) (hfind : db aid = some a)
    (hl : a.transaction_lock = some tid) (hpc : a.pending_change = some pc) :
    TwoPhaseCommitController.commit db tid aid =
      (.success (some (a.balance + pc)),
        setAccount db aid ⟨a.balance + pc, none, none⟩) := by
  unfold TwoPhaseCommitController.commit AccountRepository.commitTransaction
  simp [hfind, hl, hpc, AccountRepository.findById, setAccount_self]

/-- An Abort by the transaction holding the lock clears both lock fields
and leaves the balance alone. -/
theorem abort_success_of_locked (db : AccountsDb) (tid aid : String)
    (a : Account) (hfind : db aid = some a)
    (hl : a.transaction_lock = some tid) :
    TwoPhaseCommitController.abort db tid aid =
      (.success, setAccount db aid ⟨a.balance, none, none⟩) := by
  unfold TwoPhaseCommitController.abort AccountRepository.abortTransaction
  simp [hfind, hl]

/-- C6: Commit(tx_id, account_id) succeeds if and only if the account is
currently locked by exactly tx_id (given the source invariant that
pending_change is set iff the lock is set); on success the balance becomes
balance + pending_change and both lock fields are cleared; otherwise it
fails with Conflict and changes nothing. -/
theorem claim_C6_commit_iff_lock_held (db : AccountsDb) (tid aid : String)
    (a : Account) (hfind : db aid = some a)
    (hinv : a.pending_change.isSome ↔ a.transaction_lock.isSome) :
    ((TwoPhaseCommitController.commit db tid aid).1 ≠ .conflict ↔
       a.transaction_lock = some tid) ∧
    (∀ pc : Int, a.transaction_lock = some tid → a.pending_change = some pc →
      TwoPhaseCommitController.commit db tid aid =
        (.success (some (a.balance + pc)),
          setAccount db aid ⟨a.balance + pc, none, none⟩)) ∧
    (a.transaction_lock ≠ some tid →
      TwoPhaseCommitController.commit db tid aid = (.conflict, db)) := by
  by_cases hl : a.transaction_lock = some tid
  · have hsome : a.pending_change.isSome := hinv.mpr (by simp [hl])
    obtain ⟨pc, hpc⟩ := Option.isSome_iff_exists.mp hsome
    have hrun : TwoPhaseCommitController.commit db tid aid =
        (.success (some (a.balance + pc)),
          setAccount db aid ⟨a.balance + pc, none, none⟩) :=
      commit_success_of_locked db tid aid a pc hfind hl hpc
    refine ⟨by simp [hrun, hl], ?_, fun h => absurd hl h⟩
    intro pc' _ hpc'
    have hpp : pc = pc' := by
      rw [hpc] at hpc'
      exact Option.some.inj hpc'
    rw [← hpp]
    exact hrun
  · have hrun : TwoPhaseCommitController.commit db tid aid = (.conflict, db) := by
      unfold TwoPhaseCommitController.commit AccountRepository.commitTransaction
      simp [hfind, hl]
    exact ⟨by simp [hrun, hl], fun pc hcontr => absurd hcontr hl, fun _ => hrun⟩

/-- C6 witness: on the concrete account locked by t1 with pending −50 and
balance 100, Commit(t1, A) succeeds and leaves balance 50 with both lock
fields cleared. -/
theorem claim_C6_commit_iff_lock_held_witness :
    TwoPhaseCommitController.commit dbLockedA "t1" "A" =
      (.success (some (100 + (-50))), setAccount dbLockedA "A" ⟨100 + (-50), none, none⟩) :=
  (claim_C6_commit_iff_lock_held dbLockedA "t1" "A" ⟨100, some "t1", some (-50)⟩
    rfl (by decide)).2.1 (-50) rfl rfl

/-- C8: a Prepare(tx_id, account_id, signed_amount, debit) on an existing,
unlocked account votes abort with INSUFFICIENT_FUNDS exactly when
balance < |signed_amount|, leaving the table unchanged in that case; at
the boundary balance = |signed_amount| it votes commit, and the
subsequent Commit leaves the balance at 0. -/
theorem claim_C8_insufficient_funds_boundary (db : AccountsDb) (tid aid : String)
    (amt : Int) (a : Account) (hfind : db aid = some a)
    (hunlocked : a.transaction_lock = none) :
    ((TwoPhaseCommitController.prepare db tid aid amt .debit).1 =
        .insufficientFunds a.balance |amt| ↔ a.balance < |amt|) ∧
    (a.balance < |amt| →
      (TwoPhaseCommitController.prepare db tid aid amt .debit).2 = db) ∧
    (a.balance = |amt| →
      TwoPhaseCommitController.prepare db tid aid amt .debit =
        (.voteCommit a.balance (-|amt|),
          setAccount db aid ⟨a.balance, some tid, some (-|amt|)⟩) ∧
      (TwoPhaseCommitController.commit
          (setAccount db aid ⟨a.balance, some tid, some (-|amt|)⟩) tid aid).1 =
        .success (some 0)) := by
  by_cases hlt : a.balance < |amt|
  · have hrun : TwoPhaseCommitController.prepare db tid aid amt .debit =
        (.insufficientFunds a.balance |amt|, db) := by
      unfold TwoPhaseCommitController.prepare
      have h2 : ¬ (|amt| ≤ a.balance) := not_le.mpr hlt
      simp [hfind, AccountRepository.isLocked, hunlocked,
        canDebit_eq db aid a _ hfind, h2]
    refine ⟨by simp [hrun, hlt], fun _ => by simp [hrun], fun heq => ?_⟩
    rw [heq] at hlt
    exact absurd hlt (lt_irrefl _)
  · have hrun : TwoPhaseCommitController.prepare db tid aid amt .debit =
        (.voteCommit a.balance (-|amt|),
          setAccount db aid ⟨a.balance, some tid, some (-|amt|)⟩) := by
      have := prepare_unlocked_success db tid aid amt .debit a hfind hunlocked
        (fun _ => not_lt.mp hlt)
      simpa using this
    refine ⟨by simp [hrun, hlt], fun h => absurd h hlt, fun heq => ⟨hrun, ?_⟩⟩
    have hcommit := commit_success_of_locked
      (setAccount db aid ⟨a.balance, some tid, some (-|amt|)⟩) tid aid
      ⟨a.balance, some tid, some (-|amt|)⟩ (-|amt|) (setAccount_self _ _ _) rfl rfl
    rw [hcommit]
    simp [heq]

/-- C8 witness: the statement instantiated at an unlocked account with
balance 100 and a debit prepare of signed amount −100 (the exact
boundary), plus the boundary conclusion discharged: the vote is commit and
the subsequent commit leaves balance 0. -/
theorem claim_C8_insufficient_funds_boundary_witness :
    (((TwoPhaseCommitController.prepare dbUnlockedA "t1" "A" (-100) .debit).1 =
        .insufficientFunds 100 |(-100 : Int)| ↔ (100 : Int) < |(-100 : Int)|) ∧
      ((100 : Int) < |(-100 : Int)| →
        (TwoPhaseCommitController.prepare dbUnlockedA "t1" "A" (-100) .debit).2 =
          dbUnlockedA) ∧
      ((100 : Int) = |(-100 : Int)| →
        TwoPhaseCommitController.prepare dbUnlockedA "t1" "A" (-100) .debit =
          (.voteCommit 100 (-|(-100 : Int)|),
            setAccount dbUnlockedA "A" ⟨100, some "t1", some (-|(-100 : Int)|)⟩) ∧
        (TwoPhaseCommitController.commit
            (setAccount dbUnlockedA "A" ⟨100, some "t1", some (-|(-100 : Int)|)⟩)
            "t1" "A").1 = .success (some 0))) ∧
    (TwoPhaseCommitController.commit
        (setAccount dbUnlockedA "A" ⟨100, some "t1", some (-|(-100 : Int)|)⟩)
        "t1" "A").1 = .success (some 0) :=
  ⟨claim_C8_insufficient_funds_boundary dbUnlockedA "t1" "A" (-100)
      ⟨100, none, none⟩ rfl rfl,
    ((claim_C8_insufficient_funds_boundary dbUnlockedA "t1" "A" (-100)
      ⟨100, none, none⟩ rfl rfl).2.2 (by decide)).2⟩

/-- C10: on an existing unlocked account, of two Prepare operations that
carry distinct transaction identifiers, the first acquires the lock (vote
commit) and the second answers 409 Conflict without changing any state —
the compare-and-set acquires only where transaction_lock is currently
NULL, so at most one identifier ever occupies the lock slot (third
conjunct: a successful CAS implies the slot was empty). -/
theorem claim_C10_concurrent_prepare_exclusion (db : AccountsDb)
    (aid t1 t2 : String) (amt1 amt2 : Int) (op1 op2 : Op) (a : Account)
    (hne : t1 ≠ t2) (hfind : db aid = some a)
    (hlock : a.transaction_lock = none)
    (hfeas : op1 = .debit → |amt1| ≤ a.balance) :
    (TwoPhaseCommitController.prepare db t1 aid amt1 op1).1 =
      .voteCommit a.balance (if op1 = .debit then -|amt1| else |amt1|) ∧
    TwoPhaseCommitController.prepare
        (TwoPhaseCommitController.prepare db t1 aid amt1 op1).2 t2 aid amt2 op2 =
      (.lockedByOther (some t1),
        (TwoPhaseCommitController.prepare db t1 aid amt1 op1).2) ∧
    (∀ (dbq : AccountsDb) (t : String) (d : Int),
      (AccountRepository.lockForTransaction dbq aid t d).2 = true →
      (dbq aid).bind Account.transaction_lock = none) := by
  have hrun := prepare_unlocked_success db t1 aid amt1 op1 a hfind hlock hfeas
  refine ⟨by simp [hrun], ?_, ?_⟩
  · have hfind2 : (TwoPhaseCommitController.prepare db t1 aid amt1 op1).2 aid =
        some ⟨a.balance, some t1, some (if op1 = .debit then -|amt1| else |amt1|)⟩ := by
      rw [hrun]
      exact setAccount_self _ _ _
    exact prepare_locked_other _ t2 aid amt2 op2 _ hfind2 t1 rfl hne
  · intro dbq t d hcas
    unfold AccountRepository.lockForTransaction at hcas
    cases hdb : dbq aid with
    | none => rw [hdb] at hcas; simp at hcas
    | some b =>
      rw [hdb] at hcas
      cases hb : b.transaction_lock with
      | none => simp [hb]
      | some u => simp [hb] at hcas

/-- C10 witness: on the concrete unlocked account A (balance 1000), a
debit prepare by t1 wins the lock and a second debit prepare by t2 is
answered with Conflict naming t1, with no state change. -/
theorem claim_C10_concurrent_prepare_exclusion_witness :
    (TwoPhaseCommitController.prepare dbAB "t1" "A" (-50) .debit).1 =
      .voteCommit 1000 (if Op.debit = .debit then -|(-50 : Int)| else |(-50 : Int)|) ∧
    TwoPhaseCommitController.prepare
        (TwoPhaseCommitController.prepare dbAB "t1" "A" (-50) .debit).2 "t2" "A"
        (-30) .debit =
      (.lockedByOther (some "t1"),
        (TwoPhaseCommitController.prepare dbAB "t1" "A" (-50) .debit).2) ∧
    (∀ (dbq : AccountsDb) (t : String) (d : Int),
      (AccountRepository.lockForTransaction dbq "A" t d).2 = true →
      (dbq "A").bind Account.transaction_lock = none) :=
  claim_C10_concurrent_prepare_exclusion dbAB "A" "t1" "t2" (-50) (-30)
    .debit .debit ⟨1000, none, none⟩ (by decide) rfl rfl (by decide)

/-- C7: for a transfer of positive amount a between distinct, existing,
unlocked accounts with a feasible debit, the prepare phase stores pending
delta −a at the source and +a at the destination (both voting commit); the
commit phase then changes the source balance by exactly −a and the
destination balance by exactly +a, preserving the sum of the two balances,
while the abort phase restores both accounts with balances unchanged. -/
theorem claim_C7_conservation (db : AccountsDb) (tid src dst : String)
    (amount : Int) (s d : Account)
    (hne : src ≠ dst) (hs : db src = some s) (hd : db dst = some d)
    (hslock : s.transaction_lock = none) (hdlock : d.transaction_lock = none)
    (hpos : 0 < amount) (hfeas : amount ≤ s.balance) :
    (participantPreparePhase db tid src dst amount).1 =
      (.voteCommit s.balance (-amount), .voteCommit d.balance amount) ∧
    (participantPreparePhase db tid src dst amount).2 src =
      some ⟨s.balance, some tid, some (-amount)⟩ ∧
    (participantPreparePhase db tid src dst amount).2 dst =
      some ⟨d.balance, some tid, some amount⟩ ∧
    (participantCommitPhase (participantPreparePhase db tid src dst amount).2
        tid src dst).2 src = some ⟨s.balance - amount, none, none⟩ ∧
    (participantCommitPhase (participantPreparePhase db tid src dst amount).2
        tid src dst).2 dst = some ⟨d.balance + amount, none, none⟩ ∧
    (s.balance - amount) + (d.balance + amount) = s.balance + d.balance ∧
    (participantAbortPhase (participantPreparePhase db tid src dst amount).2
        tid src dst).2 src = some ⟨s.balance, none, none⟩ ∧
    (participantAbortPhase (participantPreparePhase db tid src dst amount).2
        tid src dst).2 dst = some ⟨d.balance, none, none⟩ := by
  have habs : |(-amount)| = amount := by
    rw [abs_neg]
    exact abs_of_pos hpos
  have habs2 : |amount| = amount := abs_of_pos hpos
  -- the two prepares
  have hp1 : TwoPhaseCommitController.prepare db tid src (-amount) .debit =
      (.voteCommit s.balance (-amount),
        setAccount db src ⟨s.balance, some tid, some (-amount)⟩) := by
    have h := prepare_unlocked_success db tid src (-amount) .debit s hs hslock
      (fun _ => by rw [habs]; exact hfeas)
    simpa [habs] using h
  have hdb1dst : setAccount db src ⟨s.balance, some tid, some (-amount)⟩ dst = some d := by
    rw [setAccount_other db src dst _ (Ne.symm hne)]
    exact hd
  have hp2 : TwoPhaseCommitController.prepare
      (setAccount db src ⟨s.balance, some tid, some (-amount)⟩) tid dst amount .credit =
      (.voteCommit d.balance amount,
        setAccount (setAccount db src ⟨s.balance, some tid, some (-amount)⟩) dst
          ⟨d.balance, some tid, some amount⟩) := by
    have h := prepare_unlocked_success
      (setAccount db src ⟨s.balance, some tid, some (-amount)⟩) tid dst amount .credit d
      hdb1dst hdlock (fun h => by simp at h)
    simpa [habs2] using h
  have hppv : (participantPreparePhase db tid src dst amount).1 =
      (.voteCommit s.balance (-amount), .voteCommit d.balance amount) := by
    simp [participantPreparePhase, hp1, hp2]
  have hppdb : (participantPreparePhase db tid src dst amount).2 =
      setAccount (setAccount db src ⟨s.balance, some tid, some (-amount)⟩) dst
        ⟨d.balance, some tid, some amount⟩ := by
    simp [participantPreparePhase, hp1, hp2]
  -- lookups in the prepared table
  have hql0 : setAccount (setAccount db src ⟨s.balance, some tid, some (-amount)⟩) dst
      ⟨d.balance, some tid, some amount⟩ src =
      some ⟨s.balance, some tid, some (-amount)⟩ := by
    rw [setAccount_other _ dst src _ hne]
    exact setAccount_self _ _ _
  have hqr0 : setAccount (setAccount db src ⟨s.balance, some tid, some (-amount)⟩) dst
      ⟨d.balance, some tid, some amount⟩ dst =
      some ⟨d.balance, some tid, some amount⟩ := setAccount_self _ _ _
  -- the two commits (on the explicit prepared table)
  have hc1 : TwoPhaseCommitController.commit
      (setAccount (setAccount db src ⟨s.balance, some tid, some (-amount)⟩) dst
        ⟨d.balance, some tid, some amount⟩) tid src =
      (.success (some (s.balance + -amount)),
        setAccount (setAccount (setAccount db src ⟨s.balance, some tid, some (-amount)⟩)
            dst ⟨d.balance, some tid, some amount⟩) src
          ⟨s.balance + -amount, none, none⟩) := by
    simpa using commit_success_of_locked _ tid src
      ⟨s.balance, some tid, some (-amount)⟩ (-amount) hql0 rfl rfl
  have hc1dst : setAccount (setAccount (setAccount db src
        ⟨s.balance, some tid, some (-amount)⟩) dst ⟨d.balance, some tid, some amount⟩)
      src ⟨s.balance + -amount, none, none⟩ dst =
      some ⟨d.balance, some tid, some amount⟩ := by
    rw [setAccount_other _ src dst _ (Ne.symm hne)]
    exact hqr0
  have hc2 : TwoPhaseCommitController.commit
      (setAccount (setAccount (setAccount db src ⟨s.balance, some tid, some (-amount)⟩)
        dst ⟨d.balance, some tid, some amount⟩) src ⟨s.balance + -amount, none, none⟩)
      tid dst =
      (.success (some (d.balance + amount)),
        setAccount (setAccount (setAccount (setAccount db src
            ⟨s.balance, some tid, some (-amount)⟩) dst ⟨d.balance, some tid, some amount⟩)
          src ⟨s.balance + -amount, none, none⟩) dst ⟨d.balance + amount, none, none⟩) := by
    simpa using commit_success_of_locked _ tid dst
      ⟨d.balance, some tid, some amount⟩ amount hc1dst rfl rfl
  have hcp : (participantCommitPhase
      (setAccount (setAccount db src ⟨s.balance, some tid, some (-amount)⟩) dst
        ⟨d.balance, some tid, some amount⟩) tid src dst).2 =
      setAccount (setAccount (setAccount (setAccount db src
          ⟨s.balance, some tid, some (-amount)⟩) dst ⟨d.balance, some tid, some amount⟩)
        src ⟨s.balance + -amount, none, none⟩) dst ⟨d.balance + amount, none, none⟩ := by
    simp [participantCommitPhase, hc1, hc2]
  -- the two aborts (on the explicit prepared table)
  have ha1 : TwoPhaseCommitController.abort
      (setAccount (setAccount db src ⟨s.balance, some tid, some (-amount)⟩) dst
        ⟨d.balance, some tid, some amount⟩) tid src =
      (.success,
        setAccount (setAccount (setAccount db src ⟨s.balance, some tid, some (-amount)⟩)
            dst ⟨d.balance, some tid, some amount⟩) src ⟨s.balance, none, none⟩) := by
    simpa using abort_success_of_locked _ tid src
      ⟨s.balance, some tid, some (-amount)⟩ hql0 rfl
  have ha1dst : setAccount (setAccount (setAccount db src
        ⟨s.balance, some tid, some (-amount)⟩) dst ⟨d.balance, some tid, some amount⟩)
      src ⟨s.balance, none, none⟩ dst = some ⟨d.balance, some tid, some amount⟩ := by
    rw [setAccount_other _ src dst _ (Ne.symm hne)]
    exact hqr0
  have ha2 : TwoPhaseCommitController.abort
      (setAccount (setAccount (setAccount db src ⟨s.balance, some tid, some (-amount)⟩)
        dst ⟨d.balance, some tid, some amount⟩) src ⟨s.balance, none, none⟩) tid dst =
      (.success,
        setAccount (setAccount (setAccount (setAccount db src
            ⟨s.balance, some tid, some (-amount)⟩) dst ⟨d.balance, some tid, some amount⟩)
          src ⟨s.balance, none, none⟩) dst ⟨d.balance, none, none⟩) := by
    simpa using abort_success_of_locked _ tid dst
      ⟨d.balance, some tid, some amount⟩ ha1dst rfl
  have hap : (participantAbortPhase
      (setAccount (setAccount db src ⟨s.balance, some tid, some (-amount)⟩) dst
        ⟨d.balance, some tid, some amount⟩) tid src dst).2 =
      setAccount (setAccount (setAccount (setAccount db src
          ⟨s.balance, some tid, some (-amount)⟩) dst ⟨d.balance, some tid, some amount⟩)
        src ⟨s.balance, none, none⟩) dst ⟨d.balance, none, none⟩ := by
    simp [participantAbortPhase, ha1, ha2]
  refine ⟨hppv, ?_, ?_, ?_, ?_, by ring, ?_, ?_⟩
  · rw [hppdb]
    exact hql0
  · rw [hppdb]
    exact hqr0
  · rw [hppdb, hcp]
    rw [setAccount_other _ dst src _ hne]
    rw [setAccount_self]
    have h9 : s.balance + -amount = s.balance - amount := by ring
    rw [h9]
  · rw [hppdb, hcp]
    exact setAccount_self _ _ _
  · rw [hppdb, hap]
    rw [setAccount_other _ dst src _ hne]
    exact setAccount_self _ _ _
  · rw [hppdb, hap]
    exact setAccount_self _ _ _

/-- C7 witness: Transfer of 50 from A (balance 1000) to B (balance 750):
prepares store −50 and +50, commits leave 950 and 800 (sum preserved), and
aborts restore 1000 and 750. -/
theorem claim_C7_conservation_witness :
    (participantPreparePhase dbAB "t1" "A" "B" 50).1 =
      (.voteCommit 1000 (-50), .voteCommit 750 50) ∧
    (participantPreparePhase dbAB "t1" "A" "B" 50).2 "A" =
      some ⟨1000, some "t1", some (-50)⟩ ∧
    (participantPreparePhase dbAB "t1" "A" "B" 50).2 "B" =
      some ⟨750, some "t1", some 50⟩ ∧
    (participantCommitPhase (participantPreparePhase dbAB "t1" "A" "B" 50).2
        "t1" "A" "B").2 "A" = some ⟨1000 - 50, none, none⟩ ∧
    (participantCommitPhase (participantPreparePhase dbAB "t1" "A" "B" 50).2
        "t1" "A" "B").2 "B" = some ⟨750 + 50, none, none⟩ ∧
    ((1000 : Int) - 50) + (750 + 50) = 1000 + 750 ∧
    (participantAbortPhase (participantPreparePhase dbAB "t1" "A" "B" 50).2
        "t1" "A" "B").2 "A" = some ⟨1000, none, none⟩ ∧
    (participantAbortPhase (participantPreparePhase dbAB "t1" "A" "B" 50).2
        "t1" "A" "B").2 "B" = some ⟨750, none, none⟩ :=
  claim_C7_conservation dbAB "t1" "A" "B" 50 ⟨1000, none, none⟩ ⟨750, none, none⟩
    (by decide) rfl rfl rfl rfl (by decide) (by decide)

theorem setTxRow_self (db : TxDb) (tid : String) (row : TxRow) :
    setTxRow db tid row tid = some row := by
  simp [setTxRow]

/-- `updateStatus` overwrites the status of an existing row
unconditionally, whatever the current status is. -/
theorem updateStatus_overwrites (db : TxDb) (tid : String) (s : TxStatus)
    (row : TxRow) (hrow : db tid = some row) :
    (TransactionRepository.updateStatus db tid s).1 tid =
      some ⟨row.source_account_id, row.destination_account_id, row.amount, s⟩ := by
  unfold TransactionRepository.updateStatus
  simp [hrow, setTxRow_self]

/-- Whatever the attempt's inputs, `executeTransfer` leaves the row for
the transaction id it used carrying exactly the terminal status it
returned. -/
theorem executeTransfer_finalizes (txdb : TxDb) (req : TransferRequest)
    (ptid : Option String) (fid : String) (env : Env) :
    ((TwoPhaseCommitCoordinator.executeTransfer txdb req ptid fid env).txdb
        (TwoPhaseCommitCoordinator.executeTransfer txdb req ptid fid env).result.transaction_id).map
      TxRow.status =
      some (TwoPhaseCommitCoordinator.executeTransfer txdb req ptid fid env).result.status := by
  unfold TwoPhaseCommitCoordinator.executeTransfer
  by_cases hv : (votesCommit env.prepSrc && votesCommit env.prepDst) = true
  · cases ptid with
    | none =>
      simp [hv, TransactionRepository.updateStatus, TransactionRepository.create,
        TransactionRepository.findById, setTxRow]
    | some t =>
      cases hrow : txdb t with
      | none =>
        simp [hv, hrow, TransactionRepository.updateStatus,
          TransactionRepository.createWithId, TransactionRepository.findById, setTxRow]
      | some row =>
        simp [hv, hrow, TransactionRepository.updateStatus,
          TransactionRepository.findById, setTxRow]
  · cases ptid with
    | none =>
      simp [hv, TransactionRepository.updateStatus, TransactionRepository.create,
        TransactionRepository.findById, setTxRow]
    | some t =>
      cases hrow : txdb t with
      | none =>
        simp [hv, hrow, TransactionRepository.updateStatus,
          TransactionRepository.createWithId, TransactionRepository.findById, setTxRow]
      | some row =>
        simp [hv, hrow, TransactionRepository.updateStatus,
          TransactionRepository.findById, setTxRow]

/-- The transaction id an attempt uses: the provided one when present, the
freshly minted one otherwise. -/
theorem executeTransfer_tid (txdb : TxDb) (req : TransferRequest)
    (ptid : Option String) (fid : String) (env : Env) :
    (TwoPhaseCommitCoordinator.executeTransfer txdb req ptid fid env).result.transaction_id =
      ptid.getD fid := by
  unfold TwoPhaseCommitCoordinator.executeTransfer
  by_cases hv : (votesCommit env.prepSrc && votesCommit env.prepDst) = true <;>
    cases ptid <;> simp [hv]

/-- C5: the coordinator enters the commit phase (sends Commit to both
participants) exactly when both prepare responses carry a recorded vote of
commit; a non-2xx response, a transport failure, a timeout, and an
explicit abort vote are all recorded as abort; and whenever the decision
is not commit, Abort is sent to both participants, the returned status is
aborted, and the transaction row is finalized aborted. -/
theorem claim_C5_votes_decide_outcome (txdb : TxDb) (req : TransferRequest)
    (ptid : Option String) (fid : String) (env : Env) :
    ((TwoPhaseCommitCoordinator.executeTransfer txdb req ptid fid env).commitsSent =
        [req.source_account_id, req.destination_account_id] ↔
      votesCommit env.prepSrc = true ∧ votesCommit env.prepDst = true) ∧
    (recordedVote .non2xx = some .abort ∧ recordedVote .transport = some .abort ∧
      recordedVote .timeout = some .abort ∧
      (∀ s : Bool, recordedVote (.ok s (some .abort)) = some .abort)) ∧
    (¬ (votesCommit env.prepSrc = true ∧ votesCommit env.prepDst = true) →
      (TwoPhaseCommitCoordinator.executeTransfer txdb req ptid fid env).result.status =
        .aborted ∧
      (TwoPhaseCommitCoordinator.executeTransfer txdb req ptid fid env).commitsSent = [] ∧
      (TwoPhaseCommitCoordinator.executeTransfer txdb req ptid fid env).abortsSent =
        [req.source_account_id, req.destination_account_id] ∧
      ((TwoPhaseCommitCoordinator.executeTransfer txdb req ptid fid env).txdb
          (TwoPhaseCommitCoordinator.executeTransfer txdb req ptid fid env).result.transaction_id).map
        TxRow.status = some .aborted) := by
  have hfin := executeTransfer_finalizes txdb req ptid fid env
  by_cases hv : (votesCommit env.prepSrc && votesCommit env.prepDst) = true
  · have hv' : votesCommit env.prepSrc = true ∧ votesCommit env.prepDst = true := by
      simpa [Bool.and_eq_true] using hv
    have hrunC : (TwoPhaseCommitCoordinator.executeTransfer txdb req ptid fid env).commitsSent =
        [req.source_account_id, req.destination_account_id] := by
      unfold TwoPhaseCommitCoordinator.executeTransfer
      simp [hv]
    refine ⟨by simp [hrunC, hv'], ⟨rfl, rfl, rfl, fun s => by cases s <;> rfl⟩, ?_⟩
    intro hcontra
    exact absurd hv' hcontra
  · have hv' : ¬ (votesCommit env.prepSrc = true ∧ votesCommit env.prepDst = true) := by
      simpa [Bool.and_eq_true] using hv
    have hrunS : (TwoPhaseCommitCoordinator.executeTransfer txdb req ptid fid env).result.status =
        .aborted := by
      unfold TwoPhaseCommitCoordinator.executeTransfer
      simp [hv]
    have hrunC : (TwoPhaseCommitCoordinator.executeTransfer txdb req ptid fid env).commitsSent =
        [] := by
      unfold TwoPhaseCommitCoordinator.executeTransfer
      simp [hv]
    have hrunA : (TwoPhaseCommitCoordinator.executeTransfer txdb req ptid fid env).abortsSent =
        [req.source_account_id, req.destination_account_id] := by
      unfold TwoPhaseCommitCoordinator.executeTransfer
      simp [hv]
    refine ⟨?_, ⟨rfl, rfl, rfl, fun s => by cases s <;> rfl⟩, ?_⟩
    · rw [hrunC]
      simp [hv']
    · intro _
      refine ⟨hrunS, hrunC, hrunA, ?_⟩
      rw [hfin, hrunS]

/-- C5 witness: with the source's prepare answering an explicit abort
vote, the attempt returns aborted, sends no Commit, sends Abort to both
accounts, and finalizes the row aborted. -/
theorem claim_C5_votes_decide_outcome_witness :
    (TwoPhaseCommitCoordinator.executeTransfer txdbEmpty reqAB none "t1"
        envPrepAbort).result.status = .aborted ∧
    (TwoPhaseCommitCoordinator.executeTransfer txdbEmpty reqAB none "t1"
        envPrepAbort).commitsSent = [] ∧
    (TwoPhaseCommitCoordinator.executeTransfer txdbEmpty reqAB none "t1"
        envPrepAbort).abortsSent =
      [reqAB.source_account_id, reqAB.destination_account_id] ∧
    ((TwoPhaseCommitCoordinator.executeTransfer txdbEmpty reqAB none "t1"
          envPrepAbort).txdb
        (TwoPhaseCommitCoordinator.executeTransfer txdbEmpty reqAB none "t1"
          envPrepAbort).result.transaction_id).map TxRow.status = some .aborted :=
  (claim_C5_votes_decide_outcome txdbEmpty reqAB none "t1" envPrepAbort).2.2 (by decide)

/-- C9: when both prepares voted commit but some commit request failed
(transport failure or unsuccessful response), the coordinator still
records the transaction as committed, returns a committed result, and
flags it for manual verification (the severity-critical diagnostic
path). -/
theorem claim_C9_commit_failure_still_committed (txdb : TxDb)
    (req : TransferRequest) (ptid : Option String) (fid : String) (env : Env)
    (h1 : votesCommit env.prepSrc = true) (h2 : votesCommit env.prepDst = true)
    (h3 : (env.commitSrc && env.commitDst) = false) :
    (TwoPhaseCommitCoordinator.executeTransfer txdb req ptid fid env).result.status =
      .committed ∧
    (TwoPhaseCommitCoordinator.executeTransfer txdb req ptid fid
        env).result.manualVerificationRequired = true ∧
    (TwoPhaseCommitCoordinator.executeTransfer txdb req ptid fid env).commitsSent =
      [req.source_account_id, req.destination_account_id] ∧
    ((TwoPhaseCommitCoordinator.executeTransfer txdb req ptid fid env).txdb
        (TwoPhaseCommitCoordinator.executeTransfer txdb req ptid fid
          env).result.transaction_id).map TxRow.status = some .committed := by
  have hfin := executeTransfer_finalizes txdb req ptid fid env
  have hv : (votesCommit env.prepSrc && votesCommit env.prepDst) = true := by
    rw [h1, h2]
    rfl
  have hS : (TwoPhaseCommitCoordinator.executeTransfer txdb req ptid fid env).result.status =
      .committed := by
    unfold TwoPhaseCommitCoordinator.executeTransfer
    simp [hv]
  have hM : (TwoPhaseCommitCoordinator.executeTransfer txdb req ptid fid
      env).result.manualVerificationRequired = true := by
    unfold TwoPhaseCommitCoordinator.executeTransfer
    simp [hv, h3]
  have hC : (TwoPhaseCommitCoordinator.executeTransfer txdb req ptid fid env).commitsSent =
      [req.source_account_id, req.destination_account_id] := by
    unfold TwoPhaseCommitCoordinator.executeTransfer
    simp [hv]
  refine ⟨hS, hM, hC, ?_⟩
  rw [hfin, hS]

/-- C9 witness: both prepares vote commit, the destination's commit call
fails; the attempt still returns committed with the manual-verification
flag and the row finalized committed. -/
theorem claim_C9_commit_failure_still_committed_witness :
    (TwoPhaseCommitCoordinator.executeTransfer txdbEmpty reqAB none "t1"
        envCommitDstFails).result.status = .committed ∧
    (TwoPhaseCommitCoordinator.executeTransfer txdbEmpty reqAB none "t1"
        envCommitDstFails).result.manualVerificationRequired = true ∧
    (TwoPhaseCommitCoordinator.executeTransfer txdbEmpty reqAB none "t1"
        envCommitDstFails).commitsSent =
      [reqAB.source_account_id, reqAB.destination_account_id] ∧
    ((TwoPhaseCommitCoordinator.executeTransfer txdbEmpty reqAB none "t1"
          envCommitDstFails).txdb
        (TwoPhaseCommitCoordinator.executeTransfer txdbEmpty reqAB none "t1"
          envCommitDstFails).result.transaction_id).map TxRow.status =
      some .committed :=
  claim_C9_commit_failure_still_committed txdbEmpty reqAB none "t1"
    envCommitDstFails rfl rfl rfl

/-- C2 counterexample: with no client-supplied transaction_id, a
first attempt that aborts (source votes abort) and a second attempt that
commits use the distinct database-minted ids t1 and t2 — the retry does
not reuse the first attempt's transaction id. -/
theorem claim_C2_counterexample :
    (TwoPhaseCommitCoordinator.executeTransferWithRetry txdbEmpty reqAB none
        [("t1", envPrepAbort), ("t2", envAllOk)]).attemptTids = ["t1", "t2"] ∧
    ("t1" : String) ≠ "t2" := by
  refine ⟨?_, by decide⟩
  decide

/-- C2 amended: every attempt of executeTransferWithRetry passes the
client-provided transaction_id through unchanged, so when one was
supplied all attempts share it; when none was supplied each attempt uses
the fresh id minted for that attempt's insert (the attempt ids are an
initial segment of the minted ids), so distinct mints give distinct
transaction ids across retries. -/
theorem claim_C2_tid_reuse_iff_provided (req : TransferRequest) :
    (∀ (txdb : TxDb) (t : String) (attempts : List (String × Env)),
      ∀ x ∈ (TwoPhaseCommitCoordinator.executeTransferWithRetry txdb req (some t)
          attempts).attemptTids, x = t) ∧
    (∀ (txdb : TxDb) (attempts : List (String × Env)),
      ∃ n : Nat,
        (TwoPhaseCommitCoordinator.executeTransferWithRetry txdb req none
            attempts).attemptTids = (attempts.map Prod.fst).take n) := by
  constructor
  · intro txdb t attempts
    induction attempts generalizing txdb with
    | nil =>
      intro x hx
      simp [TwoPhaseCommitCoordinator.executeTransferWithRetry] at hx
    | cons head rest ih =>
      obtain ⟨fid, env⟩ := head
      intro x hx
      rw [TwoPhaseCommitCoordinator.executeTransferWithRetry] at hx
      by_cases hstop :
          (TwoPhaseCommitCoordinator.executeTransfer txdb req (some t) fid
            env).result.status = TxStatus.committed ∨ rest = [] 
      · simp only [if_pos hstop] at hx
        simp only [List.mem_singleton] at hx
        rw [hx, executeTransfer_tid]
        rfl
      · simp only [if_neg hstop] at hx
        simp only [List.mem_cons] at hx
        cases hx with
        | inl hx1 =>
          rw [hx1, executeTransfer_tid]
          rfl
        | inr hx2 =>
          exact ih _ x hx2
  · intro txdb attempts
    induction attempts generalizing txdb with
    | nil =>
      exact ⟨0, rfl⟩
    | cons head rest ih =>
      obtain ⟨fid, env⟩ := head
      by_cases hstop :
          (TwoPhaseCommitCoordinator.executeTransfer txdb req none fid
            env).result.status = TxStatus.committed ∨ rest = [] 
      · refine ⟨1, ?_⟩
        rw [TwoPhaseCommitCoordinator.executeTransferWithRetry, if_pos hstop]
        simp [executeTransfer_tid]
      · obtain ⟨n, hn⟩ :=
          ih (TwoPhaseCommitCoordinator.executeTransfer txdb req none fid env).txdb
        refine ⟨n + 1, ?_⟩
        rw [TwoPhaseCommitCoordinator.executeTransferWithRetry, if_neg hstop]
        simp [executeTransfer_tid, hn]

/-- C2 witness: with a provided id t every attempt id equals t (checked on
a two-attempt run whose first attempt aborts), and without one the attempt
ids are an initial segment of the minted ids. -/
theorem claim_C2_tid_reuse_iff_provided_witness :
    (("t" : String) = "t") ∧
    (∃ n : Nat,
      (TwoPhaseCommitCoordinator.executeTransferWithRetry txdbEmpty reqAB none
          [("t1", envPrepAbort), ("t2", envAllOk)]).attemptTids =
        ([("t1", envPrepAbort), ("t2", envAllOk)].map Prod.fst).take n) :=
  ⟨(claim_C2_tid_reuse_iff_provided reqAB).1 txdbEmpty "t"
      [("f1", envPrepAbort), ("f2", envAllOk)] "t" (by decide),
    (claim_C2_tid_reuse_iff_provided reqAB).2 txdbEmpty
      [("t1", envPrepAbort), ("t2", envAllOk)]⟩

/-- C4 counterexample: a transaction row reaches the terminal status
aborted after a failed first attempt, and a later attempt that reuses the
same transaction id t flips it to committed — the terminal status is not
immutable. -/
theorem claim_C4_counterexample :
    ((TwoPhaseCommitCoordinator.executeTransfer txdbEmpty reqAB (some "t") "f1"
          envPrepAbort).txdb "t").map TxRow.status = some .aborted ∧
    ((TwoPhaseCommitCoordinator.executeTransfer
          (TwoPhaseCommitCoordinator.executeTransfer txdbEmpty reqAB (some "t") "f1"
            envPrepAbort).txdb
          reqAB (some "t") "f2" envAllOk).txdb "t").map TxRow.status =
      some .committed ∧
    TxStatus.aborted ≠ TxStatus.committed := by
  refine ⟨?_, ?_, by decide⟩
  · decide
  · decide

/-- C4 amended: the coordinator's updateStatus overwrites a row's status
unconditionally, so a transaction finalized aborted can later be rewritten
(for example to committed by a retry that reuses its transaction id);
what does hold is that within one executeTransferWithRetry call no further
attempt runs after a committed outcome, so a committed status is not
revisited by the same call. -/
theorem claim_C4_terminal_status_overwritable (txdb : TxDb) (tid : String)
    (s : TxStatus) (row : TxRow) (req : TransferRequest) (ptid : Option String)
    (fid : String) (env : Env) (rest : List (String × Env))
    (hrow : txdb tid = some row) :
    (TransactionRepository.updateStatus txdb tid s).1 tid =
      some ⟨row.source_account_id, row.destination_account_id, row.amount, s⟩ ∧
    ((TwoPhaseCommitCoordinator.executeTransfer txdb req ptid fid env).result.status =
        .committed →
      (TwoPhaseCommitCoordinator.executeTransferWithRetry txdb req ptid
          ((fid, env) :: rest)).attemptTids =
        [(TwoPhaseCommitCoordinator.executeTransfer txdb req ptid fid
            env).result.transaction_id]) := by
  constructor
  · exact updateStatus_overwrites txdb tid s row hrow
  · intro h
    rw [TwoPhaseCommitCoordinator.executeTransferWithRetry, if_pos (Or.inl h)]

/-- C4 witness: on a row for t already finalized aborted, updateStatus
rewrites it to committed, and a retry whose first attempt commits stops
after that one attempt. -/
theorem claim_C4_terminal_status_overwritable_witness :
    (TransactionRepository.updateStatus txdbAbortedT "t" .committed).1 "t" =
      some ⟨"A", "B", 50, .committed⟩ ∧
    (TwoPhaseCommitCoordinator.executeTransferWithRetry txdbAbortedT reqAB (some "t")
        [("f1", envAllOk), ("f2", envAllOk)]).attemptTids =
      [(TwoPhaseCommitCoordinator.executeTransfer txdbAbortedT reqAB (some "t") "f1"
          envAllOk).result.transaction_id] :=
  ⟨(claim_C4_terminal_status_overwritable txdbAbortedT "t" .committed
      ⟨"A", "B", 50, .aborted⟩ reqAB (some "t") "f1" envAllOk [("f2", envAllOk)] rfl).1,
    (claim_C4_terminal_status_overwritable txdbAbortedT "t" .committed
      ⟨"A", "B", 50, .aborted⟩ reqAB (some "t") "f1" envAllOk [("f2", envAllOk)] rfl).2
      (by decide)⟩
